import Mathlib

/-!
Shallow embedding of the Flask chat application (`src/demo/app.py`) and
verification of its specification.

Modelling conventions:
* The SQLite database is a pair of row lists (`users`, `chats`), in insertion
  order; `autoincrement` ids and `created_at` defaults are supplied to each
  handler as explicit `newId` / `now` parameters.
* The Flask session cookie is a `Session` value; an absent `logged_in` key is
  modelled as `logged_in = false`.
* `bcrypt.hashpw` / `bcrypt.checkpw` are opaque external functions, passed as
  parameters `hashpw` / `checkpw`.
* The `openai.ChatCompletion.create` call is modelled by an
  `Except String String` parameter: `.error e` is a raised exception with
  message `e`, `.ok content` is a successful response whose first choice has
  message content `content`.  The commit of the new `ChatRecord` may likewise
  raise (`persistErr = some e`); both raises are caught by the handler's broad
  `except` clause.
* Python `str.strip()` is `pyStrip` (drop whitespace at both ends);
  `datetime.strftime` with format `%Y-%m-%d %H:%M:%S` is `strftime` over a
  timestamp counted in seconds; `math.ceil(total / size)` is
  `(total + size - 1) / size` guarded by the `size = 0` zero-division raise,
  which the handler does not catch (`HistoryResp.crash`).
* `ORDER BY created_at DESC` is a stable sort (`List.insertionSort`) by
  descending `created_at`; the spec notes tie order is arbitrary.
-/

namespace FlaskGpt

/-- A row of the `User` table: id, unique username, bcrypt hash, creation
time (seconds). -/
structure User where
  id : Nat
  username : String
  password_hash : String
  created_at : Nat
deriving DecidableEq

/-- A row of the `ChatRecord` table. -/
structure ChatRecord where
  id : Nat
  user_id : Nat
  question : String
  answer : String
  created_at : Nat
deriving DecidableEq

/-- The database: both tables, rows in insertion order. -/
structure Db where
  users : List User
  chats : List ChatRecord
deriving DecidableEq

/-- The Flask session cookie.  A missing `logged_in` key is `false`. -/
structure Session where
  logged_in : Bool
  username : String
  user_id : Nat
deriving DecidableEq

/-- Python `str.strip()`: remove leading and trailing whitespace. -/
def pyStrip (s : String) : String :=
  ⟨((s.data.dropWhile Char.isWhitespace).reverse.dropWhile Char.isWhitespace).reverse⟩

/-- Response of the `/register` and `/login` form handlers. -/
inductive FormResp where
  | redirect (target : String)
  | err (status : Nat) (msg : String)
deriving DecidableEq

/-- Response of the `/chat` endpoint. -/
inductive ChatResp where
  | ok (reply : String)
  | err (status : Nat) (msg : String)
deriving DecidableEq

/-- One formatted record of the `/history` JSON answer. -/
structure HistoryEntry where
  id : Nat
  question : String
  answer : String
  created_at : String
deriving DecidableEq

/-- Response of the `/history` endpoint.  `crash` is an exception the handler
does not catch (surfaced by the framework, not built by the handler). -/
inductive HistoryResp where
  | ok (records : List HistoryEntry) (total total_pages current_page page_size : Nat)
  | err (status : Nat) (msg : String)
  | crash (msg : String)
deriving DecidableEq

/-- The `records` list of a successful `/history` response, `[]` otherwise. -/
def HistoryResp.recordsOf : HistoryResp → List HistoryEntry
  | .ok records _ _ _ _ => records
  | .err _ _ => []
  | .crash _ => []

/-- Handler `register` (POST branch), from `app.py` lines 79-95. -/
def register (hashpw : String → String) (username password : String)
    (newId now : Nat) (db : Db) : FormResp × Db :=
  if username = "" ∨ password = "" then
    (.err 400 "用户名或密码不能为空", db)
  else
    match db.users.find? (fun v => v.username == username) with
    | some _ => (.err 400 "该用户名已被注册", db)
    | none =>
        (.redirect "login",
         { db with users := db.users ++
             [{ id := newId, username := username,
                password_hash := hashpw password, created_at := now }] })

/-- Handler `login` (POST branch), from `app.py` lines 107-124. -/
def login (checkpw : String → String → Bool) (username password : String)
    (sess : Session) (db : Db) : FormResp × Session :=
  if username = "" ∨ password = "" then
    (.err 400 "用户名或密码不能为空", sess)
  else
    match db.users.find? (fun v => v.username == username) with
    | none => (.err 400 "用户名不存在", sess)
    | some user =>
        if checkpw password user.password_hash then
          (.redirect "index",
           { logged_in := true, username := user.username, user_id := user.id })
        else
          (.err 401 "密码错误", sess)

/-- Handler `chat`, from `app.py` lines 134-168.  `api` is the outcome of the
completion call, `persistErr` the outcome of `db.session.commit()`; either
failure is caught by the broad `except` and turned into a 500. -/
def chat (sess : Session) (message : String) (api : Except String String)
    (persistErr : Option String) (newId now : Nat) (db : Db) : ChatResp × Db :=
  if sess.logged_in = false then
    (.err 401 "未登录，无法访问此接口", db)
  else
    let user_message := pyStrip message
    if user_message = "" then
      (.err 400 "message cannot be empty", db)
    else
      match api with
      | .error e => (.err 500 e, db)
      | .ok content =>
          let reply := pyStrip content
          match persistErr with
          | some e => (.err 500 e, db)
          | none =>
              (.ok reply,
               { db with chats := db.chats ++
                   [{ id := newId, user_id := sess.user_id,
                      question := user_message, answer := reply,
                      created_at := now }] })

/-- Query `ChatRecord.query.filter_by(user_id=user_id)`: the user's rows. -/
def userChats (user_id : Nat) (db : Db) : List ChatRecord :=
  db.chats.filter (fun r => r.user_id == user_id)

/-- The `ORDER BY created_at DESC` relation: earlier rows sort after. -/
def byCreatedDesc (a b : ChatRecord) : Prop :=
  b.created_at ≤ a.created_at

instance : DecidableRel byCreatedDesc :=
  fun a b => Nat.decLe b.created_at a.created_at

instance : IsTotal ChatRecord byCreatedDesc :=
  ⟨fun a b => (Nat.le_total a.created_at b.created_at).symm⟩

instance : IsTrans ChatRecord byCreatedDesc :=
  ⟨fun _ _ _ hab hbc => Nat.le_trans hbc hab⟩

/-- Sorting `order_by(ChatRecord.created_at.desc())` as a stable sort. -/
def orderByCreatedDesc (l : List ChatRecord) : List ChatRecord :=
  l.insertionSort byCreatedDesc

/-- Pagination `.offset((page - 1) * size).limit(size).all()`. -/
def pageRows (l : List ChatRecord) (page size : Nat) : List ChatRecord :=
  (l.drop ((page - 1) * size)).take size

/-- Gregorian date (year, month, day) of a day count since 1970-01-01. -/
def civilFromDays (z0 : Nat) : Nat × Nat × Nat :=
  let z := z0 + 719468
  let era := z / 146097
  let doe := z % 146097
  let yoe := (doe - doe / 1460 + doe / 36524 - doe / 146097) / 365
  let y := yoe + era * 400
  let doy := doe - (365 * yoe + yoe / 4 - yoe / 100)
  let mp := (5 * doy + 2) / 153
  let d := doy - (153 * mp + 2) / 5 + 1
  let m := if mp < 10 then mp + 3 else mp - 9
  (if m ≤ 2 then y + 1 else y, m, d)

/-- Zero-pad to two digits. -/
def pad2 (n : Nat) : String :=
  if n < 10 then "0" ++ toString n else toString n

/-- Zero-pad to four digits. -/
def pad4 (n : Nat) : String :=
  if n < 10 then "000" ++ toString n
  else if n < 100 then "00" ++ toString n
  else if n < 1000 then "0" ++ toString n
  else toString n

/-- Formatting `created_at.strftime` with format `%Y-%m-%d %H:%M:%S`, on a timestamp in seconds. -/
def strftime (t : Nat) : String :=
  let ymd := civilFromDays (t / 86400)
  pad4 ymd.1 ++ "-" ++ pad2 ymd.2.1 ++ "-" ++ pad2 ymd.2.2 ++ " " ++
    pad2 (t / 3600 % 24) ++ ":" ++ pad2 (t / 60 % 60) ++ ":" ++ pad2 (t % 60)

/-- The dict built for each returned record. -/
def fmtRecord (r : ChatRecord) : HistoryEntry :=
  { id := r.id, question := r.question, answer := r.answer,
    created_at := strftime r.created_at }

/-- Ceiling `math.ceil(total / size)`: `none` is the `ZeroDivisionError` raise. -/
def totalPagesCeil (total size : Nat) : Option Nat :=
  if size = 0 then none else some ((total + size - 1) / size)

/-- Body of the history handler once the user's rows `l` are selected. -/
def historyOf (l : List ChatRecord) (page size : Nat) : HistoryResp :=
  match totalPagesCeil (orderByCreatedDesc l).length size with
  | none => .crash "ZeroDivisionError"
  | some tp =>
      .ok ((pageRows (orderByCreatedDesc l) page size).map fmtRecord)
        (orderByCreatedDesc l).length tp page size

/-- Handler `get_chat_history`, from `app.py` lines 170-209. -/
def getHistory (sess : Session) (page size : Nat) (db : Db) : HistoryResp :=
  if sess.logged_in = false then
    .err 401 "未登录，无法访问此接口"
  else
    historyOf (userChats sess.user_id db) page size

/-- A one-user database with 25 chat records (record `i` created at second
`i`), used to instantiate the pagination claims. -/
def sampleDb : Db :=
  { users := [{ id := 1, username := "alice", password_hash := "h", created_at := 0 }],
    chats := (List.range 25).map (fun i =>
      { id := i + 1, user_id := 1, question := "q" ++ toString (i + 1),
        answer := "a" ++ toString (i + 1), created_at := i + 1 }) }

/-- C1: for every authenticated session and every message whose trimmed form
is non-empty, when the external completion call succeeds the `/chat` handler
appends exactly one new `ChatRecord` whose `question` is the trimmed input and
whose `user_id` is the session's user id, and returns the trimmed reply. -/
theorem chat_success_inserts_one (sess : Session) (message content : String)
    (newId now : Nat) (db : Db)
    (hlog : sess.logged_in = true) (hmsg : pyStrip message ≠ "") :
    chat sess message (Except.ok content) none newId now db =
      (ChatResp.ok (pyStrip content),
       { db with chats := db.chats ++
           [{ id := newId, user_id := sess.user_id,
              question := pyStrip message, answer := pyStrip content,
              created_at := now }] }) := by
  simp [chat, hlog, hmsg]

/-- Witness for C1 at a concrete input. -/
theorem chat_success_inserts_one_witness :
    chat ⟨true, "alice", 1⟩ "  hello  " (Except.ok " Hi there. ") none 7 100 ⟨[], []⟩ =
      (ChatResp.ok "Hi there.",
       ⟨[], [⟨7, 1, "hello", "Hi there.", 100⟩]⟩) :=
  chat_success_inserts_one ⟨true, "alice", 1⟩ "  hello  " " Hi there. " 7 100 ⟨[], []⟩
    rfl (by decide)

/-- C7: for every authenticated session and every message whose trimmed form
is empty, `/chat` answers 400 and changes nothing, uniformly in the outcome of
the external API and of persistence (neither is reached). -/
theorem chat_blank_message_rejected (sess : Session) (message : String) (db : Db)
    (hlog : sess.logged_in = true) (hmsg : pyStrip message = "")
    (api : Except String String) (persistErr : Option String) (newId now : Nat) :
    chat sess message api persistErr newId now db =
      (ChatResp.err 400 "message cannot be empty", db) := by
  simp [chat, hlog, hmsg]

/-- Witness for C7 at a concrete input (whitespace-only message). -/
theorem chat_blank_message_rejected_witness :
    chat ⟨true, "alice", 1⟩ "   " (Except.error "boom") (some "dbfail") 7 100 ⟨[], []⟩ =
      (ChatResp.err 400 "message cannot be empty", ⟨[], []⟩) :=
  chat_blank_message_rejected ⟨true, "alice", 1⟩ "   " ⟨[], []⟩ rfl (by decide)
    (Except.error "boom") (some "dbfail") 7 100

/-- C8: for every request to `/chat` whose session is not authenticated, the
answer is 401 whatever the payload and the API or persistence outcomes, and no
`ChatRecord` is created (the database is returned unchanged). -/
theorem chat_unauthenticated_rejected (sess : Session) (db : Db)
    (hlog : sess.logged_in = false) (message : String)
    (api : Except String String) (persistErr : Option String) (newId now : Nat) :
    chat sess message api persistErr newId now db =
      (ChatResp.err 401 "未登录，无法访问此接口", db) := by
  simp [chat, hlog]

/-- Witness for C8 at a concrete input. -/
theorem chat_unauthenticated_rejected_witness :
    chat ⟨false, "", 0⟩ "hello" (Except.ok "yo") none 7 100 ⟨[], []⟩ =
      (ChatResp.err 401 "未登录，无法访问此接口", ⟨[], []⟩) :=
  chat_unauthenticated_rejected ⟨false, "", 0⟩ ⟨[], []⟩ rfl "hello"
    (Except.ok "yo") none 7 100

/-- C10: the broad exception handler of `/chat` also covers the insert and
commit after a successful completion call: when persistence fails the endpoint
answers 500 with the exception's string, the reply is not delivered, and the
database is unchanged. -/
theorem chat_persist_failure_hides_reply (sess : Session)
    (message content e : String) (newId now : Nat) (db : Db)
    (hlog : sess.logged_in = true) (hmsg : pyStrip message ≠ "") :
    chat sess message (Except.ok content) (some e) newId now db =
      (ChatResp.err 500 e, db) := by
  simp [chat, hlog, hmsg]

/-- Witness for C10 at a concrete input. -/
theorem chat_persist_failure_hides_reply_witness :
    chat ⟨true, "alice", 1⟩ "hello" (Except.ok "yo") (some "disk full") 7 100 ⟨[], []⟩ =
      (ChatResp.err 500 "disk full", ⟨[], []⟩) :=
  chat_persist_failure_hides_reply ⟨true, "alice", 1⟩ "hello" "yo" "disk full" 7 100
    ⟨[], []⟩ rfl (by decide)

/-- C5: for a stored user looked up by username (both fields non-empty, as a
blank field is rejected earlier with 400), login establishes the session
`{logged_in: true, username, user_id}` with that user's id exactly when the
hash check passes, and otherwise answers 401 and returns the session
unchanged. -/
theorem login_sets_session_iff_hash_ok (checkpw : String → String → Bool)
    (username password : String) (sess : Session) (db : Db) (u : User)
    (hfind : db.users.find? (fun v => v.username == username) = some u)
    (hu : username ≠ "") (hp : password ≠ "") :
    login checkpw username password sess db =
      (if checkpw password u.password_hash then
        (FormResp.redirect "index", ⟨true, u.username, u.id⟩)
      else
        (FormResp.err 401 "密码错误", sess)) := by
  simp [login, hu, hp, hfind]

/-- Witness for C5: both the matching-password and the wrong-password case on
a concrete one-user store, with a concrete hash-check function. -/
theorem login_sets_session_iff_hash_ok_witness :
    login (fun p h => h == "H:" ++ p) "alice" "pw" ⟨false, "", 0⟩
        ⟨[⟨1, "alice", "H:pw", 0⟩], []⟩ =
      (FormResp.redirect "index", ⟨true, "alice", 1⟩) ∧
    login (fun p h => h == "H:" ++ p) "alice" "wrong" ⟨false, "", 0⟩
        ⟨[⟨1, "alice", "H:pw", 0⟩], []⟩ =
      (FormResp.err 401 "密码错误", ⟨false, "", 0⟩) :=
  ⟨(login_sets_session_iff_hash_ok (fun p h => h == "H:" ++ p) "alice" "pw"
      ⟨false, "", 0⟩ ⟨[⟨1, "alice", "H:pw", 0⟩], []⟩ ⟨1, "alice", "H:pw", 0⟩
      (by decide) (by decide) (by decide)).trans (by decide),
   (login_sets_session_iff_hash_ok (fun p h => h == "H:" ++ p) "alice" "wrong"
      ⟨false, "", 0⟩ ⟨[⟨1, "alice", "H:pw", 0⟩], []⟩ ⟨1, "alice", "H:pw", 0⟩
      (by decide) (by decide) (by decide)).trans (by decide)⟩

/-- C6: when exactly one stored user carries the given username (both
submitted fields non-empty), a second registration attempt answers the 400
conflict, inserts nothing, and exactly one `User` row with that username
exists afterward. -/
theorem register_duplicate_conflict (hashpw : String → String)
    (username password : String) (newId now : Nat) (db : Db)
    (hu : username ≠ "") (hp : password ≠ "")
    (hone : db.users.countP (fun v => v.username == username) = 1) :
    register hashpw username password newId now db =
      (FormResp.err 400 "该用户名已被注册", db) ∧
    (register hashpw username password newId now db).2.users.countP
      (fun v => v.username == username) = 1 := by
  have hpos : 0 < db.users.countP (fun v => v.username == username) := by
    omega
  obtain ⟨v, hvmem, hvp⟩ := List.countP_pos_iff.mp hpos
  have hsome : (db.users.find? (fun v => v.username == username)).isSome := by
    rw [List.find?_isSome]
    exact ⟨v, hvmem, hvp⟩
  obtain ⟨w, hw⟩ := Option.isSome_iff_exists.mp hsome
  have heq : register hashpw username password newId now db =
      (FormResp.err 400 "该用户名已被注册", db) := by
    simp [register, hu, hp, hw]
  exact ⟨heq, by rw [heq]; exact hone⟩

/-- Witness for C6: re-registering the only stored username on a concrete
store. -/
theorem register_duplicate_conflict_witness :
    register (fun p => "H:" ++ p) "alice" "pw2" 2 5 ⟨[⟨1, "alice", "H:pw", 0⟩], []⟩ =
      (FormResp.err 400 "该用户名已被注册", ⟨[⟨1, "alice", "H:pw", 0⟩], []⟩) ∧
    (register (fun p => "H:" ++ p) "alice" "pw2" 2 5
        ⟨[⟨1, "alice", "H:pw", 0⟩], []⟩).2.users.countP
      (fun v => v.username == "alice") = 1 :=
  register_duplicate_conflict (fun p => "H:" ++ p) "alice" "pw2" 2 5
    ⟨[⟨1, "alice", "H:pw", 0⟩], []⟩ (by decide) (by decide) (by decide)

/-- C2: for an authenticated session and positive `page`/`size`, the history
handler returns the user's rows sorted by descending `created_at` after
skipping `(page - 1) * size` and taking at most `size`, with `total` the count
of all of that user's records, `total_pages` the ceiling of `total / size`
(characterized as the least `c` with `total ≤ c * size`), `current_page =
page` and `page_size = size`. -/
theorem getHistory_pagination (sess : Session) (page size : Nat) (db : Db)
    (hlog : sess.logged_in = true) (hpage : 1 ≤ page) (hsize : 1 ≤ size) :
    getHistory sess page size db =
      HistoryResp.ok
        ((pageRows (orderByCreatedDesc (userChats sess.user_id db)) page size).map fmtRecord)
        (userChats sess.user_id db).length
        ((userChats sess.user_id db).length ⌈/⌉ size)
        page size
    ∧ List.Sorted byCreatedDesc
        (pageRows (orderByCreatedDesc (userChats sess.user_id db)) page size)
    ∧ ∀ c : Nat, ((userChats sess.user_id db).length ⌈/⌉ size ≤ c ↔
        (userChats sess.user_id db).length ≤ c * size) := by
  have hne : size ≠ 0 := by omega
  have hlen : (orderByCreatedDesc (userChats sess.user_id db)).length
      = (userChats sess.user_id db).length :=
    (List.perm_insertionSort byCreatedDesc (userChats sess.user_id db)).length_eq
  have hceil : (userChats sess.user_id db).length ⌈/⌉ size
      = ((userChats sess.user_id db).length + size - 1) / size := rfl
  refine ⟨?_, ?_, ?_⟩
  · simp [getHistory, hlog, historyOf, totalPagesCeil, hne, hlen, hceil]
  · exact List.Pairwise.sublist
      ((List.take_sublist _ _).trans (List.drop_sublist _ _))
      (List.sorted_insertionSort byCreatedDesc (userChats sess.user_id db))
  · intro c
    exact (ceilDiv_le_iff_le_mul (show (0 : ℕ) < size by omega)).trans
      (by rw [Nat.mul_comm])

/-- Witness for C2: 25 records for the user, `page = 2`, `size = 10` yield
records 11-20 in descending creation order, `total = 25`, `total_pages = 3`,
`current_page = 2`. -/
theorem getHistory_pagination_witness :
    getHistory ⟨true, "alice", 1⟩ 2 10 sampleDb =
      HistoryResp.ok
        [⟨15, "q15", "a15", "1970-01-01 00:00:15"⟩,
         ⟨14, "q14", "a14", "1970-01-01 00:00:14"⟩,
         ⟨13, "q13", "a13", "1970-01-01 00:00:13"⟩,
         ⟨12, "q12", "a12", "1970-01-01 00:00:12"⟩,
         ⟨11, "q11", "a11", "1970-01-01 00:00:11"⟩,
         ⟨10, "q10", "a10", "1970-01-01 00:00:10"⟩,
         ⟨9, "q9", "a9", "1970-01-01 00:00:09"⟩,
         ⟨8, "q8", "a8", "1970-01-01 00:00:08"⟩,
         ⟨7, "q7", "a7", "1970-01-01 00:00:07"⟩,
         ⟨6, "q6", "a6", "1970-01-01 00:00:06"⟩]
        25 3 2 10 :=
  ((getHistory_pagination ⟨true, "alice", 1⟩ 2 10 sampleDb rfl (by decide)
      (by decide)).1).trans (by decide)

/-- C3: every record returned by the history handler is the formatting of one
of the session user's own rows, and the response is determined by those rows
alone: two database states agreeing on the session user's records produce the
same response. -/
theorem getHistory_scoped_to_user (sess : Session) (page size : Nat)
    (db db' : Db) (hlog : sess.logged_in = true)
    (hagree : userChats sess.user_id db = userChats sess.user_id db') :
    (∀ e ∈ (getHistory sess page size db).recordsOf,
       ∃ r ∈ db.chats, r.user_id = sess.user_id ∧ e = fmtRecord r) ∧
    getHistory sess page size db = getHistory sess page size db' := by
  constructor
  · intro e he
    have hg : getHistory sess page size db
        = historyOf (userChats sess.user_id db) page size := by
      simp [getHistory, hlog]
    rw [hg] at he
    by_cases hs : size = 0
    · simp [historyOf, totalPagesCeil, hs, HistoryResp.recordsOf] at he
    · simp [historyOf, totalPagesCeil, hs, HistoryResp.recordsOf] at he
      obtain ⟨r, hr, hre⟩ := he
      have hr1 : r ∈ orderByCreatedDesc (userChats sess.user_id db) :=
        List.drop_subset _ _ (List.take_subset _ _ (by simpa [pageRows] using hr))
      have hr2 : r ∈ userChats sess.user_id db :=
        (List.mem_insertionSort byCreatedDesc).mp
          (by simpa [orderByCreatedDesc] using hr1)
      obtain ⟨hmem, hp⟩ := List.mem_filter.mp hr2
      exact ⟨r, hmem, by simpa using hp, hre.symm⟩
  · simp [getHistory, hlog, hagree]

/-- Witness for C3: a foreign user's extra, more recent record does not change
the response, and the one returned entry is the session user's own row. -/
theorem getHistory_scoped_to_user_witness :
    (∀ e ∈ (getHistory ⟨true, "alice", 1⟩ 1 10
        ⟨[], [⟨1, 1, "q", "a", 5⟩]⟩).recordsOf,
       ∃ r ∈ ([⟨1, 1, "q", "a", 5⟩] : List ChatRecord),
         r.user_id = 1 ∧ e = fmtRecord r) ∧
    getHistory ⟨true, "alice", 1⟩ 1 10 ⟨[], [⟨1, 1, "q", "a", 5⟩]⟩ =
      getHistory ⟨true, "alice", 1⟩ 1 10
        ⟨[], [⟨1, 1, "q", "a", 5⟩, ⟨2, 2, "other", "x", 9⟩]⟩ :=
  getHistory_scoped_to_user ⟨true, "alice", 1⟩ 1 10
    ⟨[], [⟨1, 1, "q", "a", 5⟩]⟩
    ⟨[], [⟨1, 1, "q", "a", 5⟩, ⟨2, 2, "other", "x", 9⟩]⟩
    rfl (by decide)

/-- C9: with `size = 0` the authenticated history handler is not total: the
offset/limit row query itself still evaluates (to the empty page), but the
`total_pages` ceiling division by zero raises, so the handler crashes in its
own arithmetic. -/
theorem getHistory_size_zero_crashes (sess : Session) (page : Nat) (db : Db)
    (hlog : sess.logged_in = true) :
    getHistory sess page 0 db = HistoryResp.crash "ZeroDivisionError" ∧
    pageRows (orderByCreatedDesc (userChats sess.user_id db)) page 0 = [] ∧
    totalPagesCeil (orderByCreatedDesc (userChats sess.user_id db)).length 0
      = none := by
  refine ⟨?_, ?_, ?_⟩
  · simp [getHistory, hlog, historyOf, totalPagesCeil]
  · simp [pageRows]
  · simp [totalPagesCeil]

/-- Witness for C9 at a concrete state with one stored record. -/
theorem getHistory_size_zero_crashes_witness :
    getHistory ⟨true, "alice", 1⟩ 1 0 ⟨[], [⟨1, 1, "q", "a", 5⟩]⟩ =
      HistoryResp.crash "ZeroDivisionError" ∧
    pageRows (orderByCreatedDesc (userChats 1 ⟨[], [⟨1, 1, "q", "a", 5⟩]⟩)) 1 0 = [] ∧
    totalPagesCeil (orderByCreatedDesc (userChats 1 ⟨[], [⟨1, 1, "q", "a", 5⟩]⟩)).length 0
      = none :=
  getHistory_size_zero_crashes ⟨true, "alice", 1⟩ 1 ⟨[], [⟨1, 1, "q", "a", 5⟩]⟩ rfl

/-- Helper: every row of `l` appears, formatted, in the full first history
page of `l` (page 1, page size the number of rows). -/
theorem mem_historyOf_full (l : List ChatRecord) (r : ChatRecord) (hr : r ∈ l) :
    fmtRecord r ∈ (historyOf l 1 l.length).recordsOf := by
  have hn : l.length ≠ 0 := by
    cases l
    · simp at hr
    · simp
  have hsortlen : (orderByCreatedDesc l).length = l.length :=
    (List.perm_insertionSort byCreatedDesc l).length_eq
  have hrows : pageRows (orderByCreatedDesc l) 1 l.length = orderByCreatedDesc l := by
    simp [pageRows, List.take_of_length_le hsortlen.le]
  simp only [historyOf, totalPagesCeil, if_neg hn, hrows, HistoryResp.recordsOf]
  exact List.mem_map_of_mem fmtRecord ((List.mem_insertionSort byCreatedDesc).mpr hr)

/-- C4: round-trip: the record created by a successful `/chat` call appears,
with the same question and answer text, in a subsequent `/history` call for
that user (here at page 1 with a page size covering all of the user's
records). -/
theorem chat_history_roundtrip (sess : Session) (message content : String)
    (newId now : Nat) (db : Db)
    (hlog : sess.logged_in = true) (hmsg : pyStrip message ≠ "") :
    ∃ e ∈ (getHistory sess 1
        (userChats sess.user_id
          (chat sess message (Except.ok content) none newId now db).2).length
        (chat sess message (Except.ok content) none newId now db).2).recordsOf,
      e.question = pyStrip message ∧ e.answer = pyStrip content := by
  have hchat : (chat sess message (Except.ok content) none newId now db).2 =
      { db with chats := db.chats ++
          [⟨newId, sess.user_id, pyStrip message, pyStrip content, now⟩] } := by
    simp [chat, hlog, hmsg]
  rw [hchat]
  simp only [getHistory, hlog, Bool.true_eq_false, if_false]
  have hmem : (⟨newId, sess.user_id, pyStrip message, pyStrip content, now⟩ : ChatRecord) ∈
      userChats sess.user_id
        { db with chats := db.chats ++
            [⟨newId, sess.user_id, pyStrip message, pyStrip content, now⟩] } := by
    simp [userChats, List.filter_append]
  exact ⟨_, mem_historyOf_full _ _ hmem, rfl, rfl⟩

/-- Witness for C4 at a concrete input. -/
theorem chat_history_roundtrip_witness :
    ∃ e ∈ (getHistory ⟨true, "alice", 1⟩ 1
        (userChats 1
          (chat ⟨true, "alice", 1⟩ " hi " (Except.ok " yo ") none 7 100 ⟨[], []⟩).2).length
        (chat ⟨true, "alice", 1⟩ " hi " (Except.ok " yo ") none 7 100 ⟨[], []⟩).2).recordsOf,
      e.question = pyStrip " hi " ∧ e.answer = pyStrip " yo " :=
  chat_history_roundtrip ⟨true, "alice", 1⟩ " hi " " yo " 7 100 ⟨[], []⟩ rfl (by decide)

end FlaskGpt
